import Mathlib

/-!
Verification development for the SoftHub portfolio page
(src/src/app/page.tsx).  The page registers, inside a mount effect, a set
of declarative animation rules against page regions: entrance tweens,
scroll-triggered tweens, numeric stat counters, ambient repeat/yoyo
tweens, and pointer/focus handlers, all inside one gsap context whose
cleanup is a single revert call.

Data here (targets, start and end states, durations, eases, stagger
shapes, toggle actions, listener registrations) is transcribed from the
source file.  The behavior of the animation engine that the page calls
into (tween interpolation, value snapping, repeat and yoyo cycling,
scroll toggle actions, context revert) is modelled from the documented
semantics of that engine, which is a dependency and not part of the
repository sources.
-/

namespace SoftHub

/-- Easing curves of the page that the claims evaluate numerically, in
their standard polynomial forms.  The rules use power2.out, power3.out
and back.out(1.7); the ambient tweens name sine.inOut but no claim
evaluates it, so it stays symbolic data (a name string) on those records. -/
inductive EaseKind
  | power2out
  | power3out
  | backOut17
  deriving DecidableEq

/-- Numeric evaluation of the polynomial eases: power2.out is
1 - (1-x)^2, power3.out is 1 - (1-x)^3, back.out(1.7) is
1 + 2.7(x-1)^3 + 1.7(x-1)^2. -/
def easeEval : EaseKind → ℚ → ℚ
  | .power2out, x => 1 - (1 - x) ^ 2
  | .power3out, x => 1 - (1 - x) ^ 3
  | .backOut17, x => 1 + (27/10) * (x - 1) ^ 3 + (17/10) * (x - 1) ^ 2

/-- Rounding to the nearest integer, the effect of the snap
configuration with increment 1 that both counting tweens use
(snap with textContent 1 at lines 379 and 482). -/
def rnd (q : ℚ) : ℤ := ⌊q + 1/2⌋

/-- One stat counter: the integer part and the suffix of the literal
terminal markup text, plus the tween duration.  The counting tweens read
the terminal text from the markup and tween the text from the string 0
to it (lines 368 to 387 and 471 to 490). -/
structure Counter where
  target : ℕ
  suffix : String
  dur : ℚ
  deriving DecidableEq

/-- Modelled from the documented engine semantics of a text tween with a
snap increment of 1: at each rendered step the interpolated numeric value
is snapped to a whole number; the displayed text is that whole number
followed by the terminal suffix.  Both counting tweens use power2.out. -/
def counterValue (c : Counter) (t : ℚ) : ℤ :=
  rnd ((c.target : ℚ) * easeEval .power2out (t / c.dur))

/-- Displayed text of a stat counter at time t of its tween. -/
def counterText (c : Counter) (t : ℚ) : String :=
  toString (counterValue c t) ++ c.suffix

/-- The six stat counters of the page: the tech section stats 12+, 5+
and 100 percent (duration 1.5), and the about section stats 50+, 5+ and
100 percent (duration 2), with suffixes from the markup literals. -/
def pageCounters : List Counter :=
  [⟨12, "+", 1.5⟩, ⟨5, "+", 1.5⟩, ⟨100, "%", 1.5⟩,
   ⟨50, "+", 2⟩, ⟨5, "+", 2⟩, ⟨100, "%", 2⟩]

/-- Animated visual properties of one element.  Box shadows are kept as
the numeric offset-y, blur and alpha of the rgba shadow strings in the
source; untouched fields of a tween target state hold the resting value. -/
@[ext] structure VisualState where
  opacity : ℚ
  x : ℚ
  y : ℚ
  z : ℚ
  scale : ℚ
  rotation : ℚ
  rotationX : ℚ
  rotationY : ℚ
  shadowY : ℚ
  shadowBlur : ℚ
  shadowAlpha : ℚ
  deriving DecidableEq

/-- Resting visual state of an element before any interaction: full
opacity, identity transform, no shadow. -/
def restState : VisualState :=
  { opacity := 1, x := 0, y := 0, z := 0, scale := 1, rotation := 0,
    rotationX := 0, rotationY := 0, shadowY := 0, shadowBlur := 0,
    shadowAlpha := 0 }

/-- Fieldwise linear interpolation between two visual states at eased
progress q, the engine interpolation of a multi-property tween. -/
def lerpS (a b : VisualState) (q : ℚ) : VisualState :=
  { opacity := a.opacity + (b.opacity - a.opacity) * q,
    x := a.x + (b.x - a.x) * q,
    y := a.y + (b.y - a.y) * q,
    z := a.z + (b.z - a.z) * q,
    scale := a.scale + (b.scale - a.scale) * q,
    rotation := a.rotation + (b.rotation - a.rotation) * q,
    rotationX := a.rotationX + (b.rotationX - a.rotationX) * q,
    rotationY := a.rotationY + (b.rotationY - a.rotationY) * q,
    shadowY := a.shadowY + (b.shadowY - a.shadowY) * q,
    shadowBlur := a.shadowBlur + (b.shadowBlur - a.shadowBlur) * q,
    shadowAlpha := a.shadowAlpha + (b.shadowAlpha - a.shadowAlpha) * q }

/-- One pointer or focus interaction pair of the page: the end state of
the forward tween played on enter or focus and the end state of the
tween played on leave or blur, with their durations and eases,
transcribed from the handler bodies. -/
structure HoverPair where
  name : String
  enterEnd : VisualState
  leaveEnd : VisualState
  enterDur : ℚ
  leaveDur : ℚ
  enterEase : EaseKind
  leaveEase : EaseKind
  deriving DecidableEq

/-- Tech badge hover (lines 303 to 321): enter scale 1.1, y -8, cyan
shadow 0 10px 25px alpha 0.3; leave scale 1, y 0, zero shadow. -/
def techBadgePair : HoverPair :=
  { name := "tech-badge",
    enterEnd := { opacity := 1, x := 0, y := -8, z := 0, scale := 1.1,
                  rotation := 0, rotationX := 0, rotationY := 0,
                  shadowY := 10, shadowBlur := 25, shadowAlpha := 0.3 },
    leaveEnd := { opacity := 1, x := 0, y := 0, z := 0, scale := 1,
                  rotation := 0, rotationX := 0, rotationY := 0,
                  shadowY := 0, shadowBlur := 0, shadowAlpha := 0 },
    enterDur := 0.3, leaveDur := 0.3,
    enterEase := .power2out, leaveEase := .power2out }

/-- About section tech icon hover (lines 426 to 444): enter scale 1.1,
y -5; leave scale 1, y 0. -/
def aboutIconPair : HoverPair :=
  { name := "about-icon",
    enterEnd := { opacity := 1, x := 0, y := -5, z := 0, scale := 1.1,
                  rotation := 0, rotationX := 0, rotationY := 0,
                  shadowY := 0, shadowBlur := 0, shadowAlpha := 0 },
    leaveEnd := { opacity := 1, x := 0, y := 0, z := 0, scale := 1,
                  rotation := 0, rotationX := 0, rotationY := 0,
                  shadowY := 0, shadowBlur := 0, shadowAlpha := 0 },
    enterDur := 0.3, leaveDur := 0.3,
    enterEase := .power2out, leaveEase := .power2out }

/-- Social button hover (lines 614 to 634): enter scale 1.2, rotationY
180, rotationX 10, z 20 over 0.6 with back.out(1.7); leave scale 1,
rotationY 0, rotationX 0, z 0 over 0.4 with power2.out. -/
def socialButtonPair : HoverPair :=
  { name := "social-button",
    enterEnd := { opacity := 1, x := 0, y := 0, z := 20, scale := 1.2,
                  rotation := 0, rotationX := 10, rotationY := 180,
                  shadowY := 0, shadowBlur := 0, shadowAlpha := 0 },
    leaveEnd := { opacity := 1, x := 0, y := 0, z := 0, scale := 1,
                  rotation := 0, rotationX := 0, rotationY := 0,
                  shadowY := 0, shadowBlur := 0, shadowAlpha := 0 },
    enterDur := 0.6, leaveDur := 0.4,
    enterEase := .backOut17, leaveEase := .power2out }

/-- Form input focus and blur (lines 638 to 658): focus scale 1.02,
rotationX -2, z 5; blur scale 1, rotationX 0, z 0. -/
def formInputPair : HoverPair :=
  { name := "form-input",
    enterEnd := { opacity := 1, x := 0, y := 0, z := 5, scale := 1.02,
                  rotation := 0, rotationX := -2, rotationY := 0,
                  shadowY := 0, shadowBlur := 0, shadowAlpha := 0 },
    leaveEnd := { opacity := 1, x := 0, y := 0, z := 0, scale := 1,
                  rotation := 0, rotationX := 0, rotationY := 0,
                  shadowY := 0, shadowBlur := 0, shadowAlpha := 0 },
    enterDur := 0.3, leaveDur := 0.3,
    enterEase := .power2out, leaveEase := .power2out }

/-- Service card hover, card part (lines 666 to 689): enter scale 1.05,
y -10, rotationY 5; leave scale 1, y 0, rotationY 0. -/
def serviceCardPair : HoverPair :=
  { name := "service-card",
    enterEnd := { opacity := 1, x := 0, y := -10, z := 0, scale := 1.05,
                  rotation := 0, rotationX := 0, rotationY := 5,
                  shadowY := 0, shadowBlur := 0, shadowAlpha := 0 },
    leaveEnd := { opacity := 1, x := 0, y := 0, z := 0, scale := 1,
                  rotation := 0, rotationX := 0, rotationY := 0,
                  shadowY := 0, shadowBlur := 0, shadowAlpha := 0 },
    enterDur := 0.3, leaveDur := 0.3,
    enterEase := .power2out, leaveEase := .power2out }

/-- Service card hover, icon part (lines 674 to 695): enter rotation
360, scale 1.2 over 0.6 with back.out(1.7); leave rotation 0, scale 1
over 0.4 with power2.out. -/
def serviceIconPair : HoverPair :=
  { name := "service-icon",
    enterEnd := { opacity := 1, x := 0, y := 0, z := 0, scale := 1.2,
                  rotation := 360, rotationX := 0, rotationY := 0,
                  shadowY := 0, shadowBlur := 0, shadowAlpha := 0 },
    leaveEnd := { opacity := 1, x := 0, y := 0, z := 0, scale := 1,
                  rotation := 0, rotationX := 0, rotationY := 0,
                  shadowY := 0, shadowBlur := 0, shadowAlpha := 0 },
    enterDur := 0.6, leaveDur := 0.4,
    enterEase := .backOut17, leaveEase := .power2out }

/-- All pointer and focus interaction pairs the page registers. -/
def hoverPairs : List HoverPair :=
  [techBadgePair, aboutIconPair, socialButtonPair, formInputPair,
   serviceCardPair, serviceIconPair]

/-- Rendered value of the leave tween of a pair at time t after the
leave event, when that tween was created with current state s0: the
engine interpolates from s0 to the leave end state under the leave ease. -/
def leaveValue (p : HoverPair) (s0 : VisualState) (t : ℚ) : VisualState :=
  lerpS s0 p.leaveEnd (easeEval p.leaveEase (t / p.leaveDur))

/-- A scalar tween on one animated property: start value, end value,
creation time, duration, ease. -/
structure Tween1 where
  startVal : ℚ
  endVal : ℚ
  t0 : ℚ
  dur : ℚ
  easeK : EaseKind
  deriving DecidableEq

/-- Rendered value of a scalar tween at time t. -/
def Tween1.val (tw : Tween1) (t : ℚ) : ℚ :=
  tw.startVal + (tw.endVal - tw.startVal) * easeEval tw.easeK ((t - tw.t0) / tw.dur)

/-- One animated property of one element, carrying the tween currently
driving it. -/
structure PropAnim where
  tw : Tween1
  deriving DecidableEq

/-- Rendered value of the property at time t. -/
def PropAnim.valueAt (p : PropAnim) (t : ℚ) : ℚ := p.tw.val t

/-- Modelled from the spec: the engine call that the pointer handlers
make (a to-tween) reads the current rendered value of the property as
the new start state and supersedes the tween previously driving that
property, so a trigger flip mid-flight replaces the in-flight transition
and continues from its current interpolated value. -/
def gsapTo (p : PropAnim) (t endVal dur : ℚ) (k : EaseKind) : PropAnim :=
  ⟨⟨p.valueAt t, endVal, t, dur, k⟩⟩

/-- Scale of a social button at rest: constant 1 (a degenerate tween
whose start and end are the resting value). -/
def socialRestScale : PropAnim := ⟨⟨1, 1, 0, 1, .power2out⟩⟩

/-- Mouseenter handler of a social button on the scale property (line
614): to scale 1.2, duration 0.6, back.out(1.7). -/
def socialEnterAt (p : PropAnim) (t : ℚ) : PropAnim :=
  gsapTo p t 1.2 0.6 .backOut17

/-- Mouseleave handler of a social button on the scale property (line
625): to scale 1, duration 0.4, power2.out. -/
def socialLeaveAt (p : PropAnim) (t : ℚ) : PropAnim :=
  gsapTo p t 1 0.4 .power2out

/-- Properties an ambient tween animates. -/
inductive AnimProp
  | scale
  | rotationX
  | rotationY
  deriving DecidableEq

/-- An ambient repeat/yoyo tween: target index, animated properties and
their target amplitudes, duration of one phase, start delay, repeat
count (-1 is infinite), yoyo flag and the ease name from the source. -/
structure Ambient where
  targetIndex : ℕ
  props : List AnimProp
  amps : List ℚ
  dur : ℚ
  delay : ℚ
  rep : ℤ
  yoyo : Bool
  easeName : String
  deriving DecidableEq

/-- Breathing tween of tech badge i (lines 294 to 301): scale to 1.02,
duration 2 plus a random fraction r, repeat -1, yoyo, sine.inOut, delay
0.1 times the index. -/
def breathing (i : ℕ) (r : ℚ) : Ambient :=
  { targetIndex := i, props := [.scale], amps := [1.02],
    dur := 2 + r, delay := 0.1 * (i : ℚ), rep := -1, yoyo := true,
    easeName := "sine.inOut" }

/-- Continuous rotation tween of social button i (lines 604 to 612):
rotationY to 5 sin i and rotationX to 3 cos i (sinI and cosI stand for
the sine and cosine values), duration 3 plus a random fraction r, repeat
-1, yoyo, sine.inOut, delay 0.2 times the index. -/
def socialSpin (i : ℕ) (sinI cosI r : ℚ) : Ambient :=
  { targetIndex := i, props := [.rotationY, .rotationX],
    amps := [5 * sinI, 3 * cosI],
    dur := 3 + r, delay := 0.2 * (i : ℚ), rep := -1, yoyo := true,
    easeName := "sine.inOut" }

/-- Modelled from the documented engine semantics of repeat: a tween
with repeat count n at least 0 is finished once n + 1 full cycles have
elapsed after its delay; a tween with repeat -1 never finishes. -/
def completedAt (a : Ambient) (t : ℚ) : Prop :=
  0 ≤ a.rep ∧ a.delay + a.dur * ((a.rep + 1 : ℤ) : ℚ) ≤ t

/-- The tween never reaches a finished state at any time. -/
def neverCompletes (a : Ambient) : Prop := ∀ t : ℚ, ¬ completedAt a t

/-- Index of the yoyo half-cycle in progress at time t: even indices are
the forward phase (toward the amplitude), odd indices the backward phase
(back toward the start), alternating forever. -/
def halfCycle (a : Ambient) (t : ℚ) : ℤ := ⌊(t - a.delay) / a.dur⌋

/-- Toggle actions a scroll trigger can run at its four boundary
events. -/
inductive TAction
  | play
  | pause
  | resume
  | reset
  | restart
  | complete
  | reverse
  | nop
  deriving DecidableEq

/-- The four slots onEnter, onLeave, onEnterBack, onLeaveBack of a
scroll trigger configuration. -/
structure ToggleActions where
  onEnter : TAction
  onLeave : TAction
  onEnterBack : TAction
  onLeaveBack : TAction
  deriving DecidableEq

/-- The toggleActions string play none none reverse that every scroll
triggered tween of the page passes. -/
def playNoneNoneReverse : ToggleActions :=
  ⟨.play, .nop, .nop, .reverse⟩

/-- Scroll boundary events of a trigger. -/
inductive ScrollEv
  | enter
  | leaveFwd
  | enterBack
  | leaveBack
  deriving DecidableEq

/-- Action a trigger configuration runs at a scroll event. -/
def taFor (ta : ToggleActions) : ScrollEv → TAction
  | .enter => ta.onEnter
  | .leaveFwd => ta.onLeave
  | .enterBack => ta.onEnterBack
  | .leaveBack => ta.onLeaveBack

/-- Phase of a reversible rule: idle (start state), playing forward,
settled (end state), playing in reverse. -/
inductive Phase
  | idle
  | playingF
  | settled
  | playingR
  deriving DecidableEq

/-- Modelled from the documented engine semantics of the toggle actions
at phase granularity: play and restart play forward, reverse plays
backward, complete jumps to the end, reset jumps to the start, pause,
resume and none keep the phase. -/
def applyAction (ph : Phase) : TAction → Phase
  | .play => .playingF
  | .restart => .playingF
  | .reverse => .playingR
  | .complete => .settled
  | .reset => .idle
  | .pause => ph
  | .resume => ph
  | .nop => ph

/-- Phase after a playing transition runs to completion: forward ends
settled, reverse ends idle. -/
def finishTransition : Phase → Phase
  | .playingF => .settled
  | .playingR => .idle
  | p => p

/-- A viewport intersection rule of the page: its toggle actions, or
none for the callback-only trigger that runs a one-shot callback on
enter. -/
structure ScrollRule where
  name : String
  ta : Option ToggleActions
  deriving DecidableEq

/-- A rule re-fires in reverse when its target exits the threshold
backward exactly when its onLeaveBack slot is the reverse action;
a callback-only trigger has no reverse slot at all. -/
def reversesOnExit (r : ScrollRule) : Bool :=
  match r.ta with
  | some t => decide (t.onLeaveBack = TAction.reverse)
  | none => false

/-- Service cards entrance trigger (lines 222 to 227). -/
def serviceCardsRule : ScrollRule := ⟨"service-cards-entrance", some playNoneNoneReverse⟩

/-- Project card entrance trigger (lines 250 to 254). -/
def projectCardsRule : ScrollRule := ⟨"project-card-entrance", some playNoneNoneReverse⟩

/-- Tech badges entrance trigger (lines 283 to 287). -/
def techBadgesRule : ScrollRule := ⟨"tech-badges-entrance", some playNoneNoneReverse⟩

/-- Tech badge wave trigger (lines 325 to 341): a ScrollTrigger.create
with only an onEnter callback and no toggle actions. -/
def techWaveRule : ScrollRule := ⟨"tech-badges-wave", none⟩

/-- Tech stat fade trigger (lines 360 to 364). -/
def techStatFadeRule : ScrollRule := ⟨"tech-stat-fade", some playNoneNoneReverse⟩

/-- Tech stat counting trigger (lines 380 to 384). -/
def techStatCountRule : ScrollRule := ⟨"tech-stat-count", some playNoneNoneReverse⟩

/-- About icons entrance trigger (lines 416 to 420). -/
def iconsEntranceRule : ScrollRule := ⟨"about-icons-entrance", some playNoneNoneReverse⟩

/-- About stat fade trigger (lines 463 to 467). -/
def aboutStatFadeRule : ScrollRule := ⟨"about-stat-fade", some playNoneNoneReverse⟩

/-- About stat counting trigger (lines 483 to 487). -/
def aboutStatCountRule : ScrollRule := ⟨"about-stat-count", some playNoneNoneReverse⟩

/-- Contact info entrance trigger (lines 517 to 521). -/
def contactInfoRule : ScrollRule := ⟨"contact-info-entrance", some playNoneNoneReverse⟩

/-- Contact form entrance trigger (lines 540 to 544). -/
def contactFormRule : ScrollRule := ⟨"contact-form-entrance", some playNoneNoneReverse⟩

/-- Contact items entrance trigger (lines 564 to 568). -/
def contactItemsRule : ScrollRule := ⟨"contact-items-entrance", some playNoneNoneReverse⟩

/-- Form inputs entrance trigger (lines 588 to 592). -/
def formInputsRule : ScrollRule := ⟨"form-inputs-entrance", some playNoneNoneReverse⟩

/-- All viewport intersection rules the page registers, in source
order. -/
def pageViewportRules : List ScrollRule :=
  [serviceCardsRule, projectCardsRule, techBadgesRule, techWaveRule,
   techStatFadeRule, techStatCountRule, iconsEntranceRule,
   aboutStatFadeRule, aboutStatCountRule, contactInfoRule,
   contactFormRule, contactItemsRule, formInputsRule]

/-- Origin patterns of an object-form stagger. -/
inductive StaggerOrigin
  | fromStart
  | fromCenter
  | fromRandom
  deriving DecidableEq

/-- A stagger configuration: the numeric form is a fixed per-item delay
between consecutive starts; the object form splits a total amount among
the set following an origin pattern. -/
inductive Stagger
  | each (d : ℚ)
  | budget (amount : ℚ) (origin : StaggerOrigin)
  deriving DecidableEq

/-- Start-time offsets of the n targets of a staggered rule.  Modelled
from the documented engine semantics: the numeric form starts item i at
i times the delay; the object form splits the amount so consecutive
slots are amount over n apart (the origin patterns permute which target
receives which slot, so the multiset of offsets is origin independent). -/
def offsets : Stagger → ℕ → List ℚ
  | .each d, n => (List.range n).map (fun i : ℕ => d * (i : ℚ))
  | .budget a _, n => (List.range n).map (fun i : ℕ => a * (i : ℚ) / (n : ℚ))

/-- Elapsed time from the first start to the last start of a staggered
set: the first offset is always 0, so this is the largest offset. -/
def spreadOf (st : Stagger) (n : ℕ) : ℚ :=
  (offsets st n).foldl max 0

/-- Whether a stagger divides a total spread budget across the set
(object form) rather than adding a fixed per-item delay (numeric form). -/
def usesBudget : Stagger → Bool
  | .each _ => false
  | .budget _ _ => true

/-- A staggered rule of the page. -/
structure StagRule where
  name : String
  stag : Stagger
  deriving DecidableEq

/-- Hero buttons entrance (line 196): numeric stagger 0.2. -/
def heroButtonsStag : StagRule := ⟨"hero-buttons", .each 0.2⟩

/-- Service cards entrance (line 220): numeric stagger 0.2. -/
def serviceCardsStag : StagRule := ⟨"service-cards", .each 0.2⟩

/-- Tech badges entrance (lines 277 to 281): amount 1.2 from random. -/
def techBadgesStag : StagRule := ⟨"tech-badges", .budget 1.2 .fromRandom⟩

/-- Tech badge wave (lines 332 to 335): amount 0.8 from start. -/
def techWaveStag : StagRule := ⟨"tech-wave", .budget 0.8 .fromStart⟩

/-- About icons entrance (lines 410 to 414): amount 1 from center. -/
def aboutIconsStag : StagRule := ⟨"about-icons", .budget 1 .fromCenter⟩

/-- Contact items entrance (line 562): numeric stagger 0.2. -/
def contactItemsStag : StagRule := ⟨"contact-items", .each 0.2⟩

/-- Form inputs entrance (line 586): numeric stagger 0.1. -/
def formInputsStag : StagRule := ⟨"form-inputs", .each 0.1⟩

/-- All staggered rules of the page. -/
def pageStaggerRules : List StagRule :=
  [heroButtonsStag, serviceCardsStag, techBadgesStag, techWaveStag,
   aboutIconsStag, contactItemsStag, formInputsStag]

/-- Mounted tree the orchestrator scans: which section refs are non
null, whether the two contact querySelector targets exist, and how many
elements each querySelectorAll role matches. -/
structure Dom where
  title : Bool
  subtitle : Bool
  buttons : Bool
  services : Bool
  projects : Bool
  tech : Bool
  about : Bool
  contact : Bool
  contactInfo : Bool
  contactForm : Bool
  nHeroButtons : ℕ
  nServiceCards : ℕ
  nProjectCards : ℕ
  nTechBadges : ℕ
  nTechStats : ℕ
  nIcons : ℕ
  nStatItems : ℕ
  nContactItems : ℕ
  nFormInputs : ℕ
  nSocialButtons : ℕ
  deriving DecidableEq

/-- The tree the page actually renders: every section present, 2 hero
buttons, 3 service cards, 3 project cards, 12 tech badges, 3 tech
stats, 6 about icons, 3 about stat items, 3 contact items, 4 form
inputs, 3 social buttons. -/
def pageDom : Dom :=
  { title := true, subtitle := true, buttons := true, services := true,
    projects := true, tech := true, about := true, contact := true,
    contactInfo := true, contactForm := true,
    nHeroButtons := 2, nServiceCards := 3, nProjectCards := 3,
    nTechBadges := 12, nTechStats := 3, nIcons := 6, nStatItems := 3,
    nContactItems := 3, nFormInputs := 4, nSocialButtons := 3 }

/-- Counts of live engine objects belonging to one mount: tweens and
timelines recorded in the gsap context, scroll trigger observers, and
DOM event listeners attached with addEventListener. -/
structure CtxState where
  tweens : ℕ
  triggers : ℕ
  listeners : ℕ
  deriving DecidableEq

/-- Empty state before the mount effect runs. -/
def ctx0 : CtxState := ⟨0, 0, 0⟩

/-- Objects one run of the mount effect creates, block by block from the
source: the hero timeline and its three child tweens (lines 154 to 201),
the service cards tween and trigger (207 to 230), one tween and trigger
per project card (236 to 257), the tech section entrance, per-badge
breathing tweens, two listeners per badge, the wave trigger and two
tweens and triggers per stat (261 to 389), the about icons entrance, two
listeners per icon and two tweens and triggers per stat item (392 to
492), the four contact entrance tweens and triggers, a set call and a
spin tween plus two listeners per social button and two listeners per
form input (495 to 659), and two hover listeners per service card from
the unguarded document query (661 to 697). -/
def contrib (d : Dom) : CtxState :=
  { tweens :=
      1 + (if d.title then 2 else 0) + (if d.subtitle then 1 else 0) +
      (if d.buttons then 1 else 0) + (if d.services then 1 else 0) +
      (if d.projects then d.nProjectCards else 0) +
      (if d.tech then 1 + d.nTechBadges + 2 * d.nTechStats else 0) +
      (if d.about then 1 + 2 * d.nStatItems else 0) +
      (if d.contact then 4 + 2 * d.nSocialButtons else 0),
    triggers :=
      (if d.services then 1 else 0) +
      (if d.projects then d.nProjectCards else 0) +
      (if d.tech then 2 + 2 * d.nTechStats else 0) +
      (if d.about then 1 + 2 * d.nStatItems else 0) +
      (if d.contact then 4 else 0),
    listeners :=
      (if d.tech then 2 * d.nTechBadges else 0) +
      (if d.about then 2 * d.nIcons else 0) +
      (if d.contact then 2 * d.nSocialButtons + 2 * d.nFormInputs else 0) +
      2 * d.nServiceCards }

/-- One run of the mount effect on a given tree, starting from a given
state: it only ever adds objects, it never checks for or removes
existing ones. -/
def initPass (d : Dom) (s : CtxState) : CtxState :=
  { tweens := s.tweens + (contrib d).tweens,
    triggers := s.triggers + (contrib d).triggers,
    listeners := s.listeners + (contrib d).listeners }

/-- The effect cleanup, a single ctx.revert() call (line 700).  Modelled
from the documented engine semantics of a context revert: every
animation and scroll trigger recorded in the context is killed, but a
context only records engine objects, so listeners attached with plain
addEventListener are untouched, and the component never calls
removeEventListener. -/
def teardown (s : CtxState) : CtxState :=
  { tweens := 0, triggers := 0, listeners := s.listeners }

/-- A mouseenter arriving at a tech badge whose listener survived: the
handler body (lines 303 to 311) runs and creates a fresh tween. -/
def fireBadgeHover (s : CtxState) : CtxState :=
  { s with tweens := s.tweens + 1 }

/-- Structural roles of the rules the mount effect attempts, in
registration order.  Rules registered inside a per-element forEach are
collapsed to one role that is present when at least one element
matches. -/
inductive Role
  | heroTitle
  | heroSubtitle
  | heroButtons
  | serviceEntrance
  | projectEntrance
  | techEntrance
  | techBreathing
  | techHover
  | techWave
  | techStatFade
  | techStatCount
  | iconsEntrance
  | iconHover
  | aboutStatFade
  | aboutStatCount
  | contactInfoEntrance
  | contactFormEntrance
  | contactItemsEntrance
  | formInputsEntrance
  | socialAmbient
  | socialHover
  | formFocus
  | serviceHover
  deriving DecidableEq

/-- One registration site: the rule is registered when its guard holds,
and skipped with no other effect when it does not. -/
def chunk (b : Bool) (r : Role) : List Role :=
  if b then [r] else []

/-- Rules one run of the mount effect actually registers on a tree,
transcribed from the guard structure of the source: each section block
is guarded by its ref being non null, a querySelectorAll rule animates
nothing when it matches zero elements, the two contact querySelector
rules need their element, and the service hover block queries the whole
document unguarded. -/
def activeRules (d : Dom) : List Role :=
  chunk d.title .heroTitle ++
  chunk d.subtitle .heroSubtitle ++
  chunk (d.buttons && d.nHeroButtons != 0) .heroButtons ++
  chunk (d.services && d.nServiceCards != 0) .serviceEntrance ++
  chunk (d.projects && d.nProjectCards != 0) .projectEntrance ++
  chunk (d.tech && d.nTechBadges != 0) .techEntrance ++
  chunk (d.tech && d.nTechBadges != 0) .techBreathing ++
  chunk (d.tech && d.nTechBadges != 0) .techHover ++
  chunk d.tech .techWave ++
  chunk (d.tech && d.nTechStats != 0) .techStatFade ++
  chunk (d.tech && d.nTechStats != 0) .techStatCount ++
  chunk (d.about && d.nIcons != 0) .iconsEntrance ++
  chunk (d.about && d.nIcons != 0) .iconHover ++
  chunk (d.about && d.nStatItems != 0) .aboutStatFade ++
  chunk (d.about && d.nStatItems != 0) .aboutStatCount ++
  chunk (d.contact && d.contactInfo) .contactInfoEntrance ++
  chunk (d.contact && d.contactForm) .contactFormEntrance ++
  chunk (d.contact && d.nContactItems != 0) .contactItemsEntrance ++
  chunk (d.contact && d.nFormInputs != 0) .formInputsEntrance ++
  chunk (d.contact && d.nSocialButtons != 0) .socialAmbient ++
  chunk (d.contact && d.nSocialButtons != 0) .socialHover ++
  chunk (d.contact && d.nFormInputs != 0) .formFocus ++
  chunk (d.nServiceCards != 0) .serviceHover

/-- Whether the target of a role is present in a tree: the predicate the
spec states rule skipping with. -/
def rolePresent (d : Dom) : Role → Bool
  | .heroTitle => d.title
  | .heroSubtitle => d.subtitle
  | .heroButtons => d.buttons && d.nHeroButtons != 0
  | .serviceEntrance => d.services && d.nServiceCards != 0
  | .projectEntrance => d.projects && d.nProjectCards != 0
  | .techEntrance => d.tech && d.nTechBadges != 0
  | .techBreathing => d.tech && d.nTechBadges != 0
  | .techHover => d.tech && d.nTechBadges != 0
  | .techWave => d.tech
  | .techStatFade => d.tech && d.nTechStats != 0
  | .techStatCount => d.tech && d.nTechStats != 0
  | .iconsEntrance => d.about && d.nIcons != 0
  | .iconHover => d.about && d.nIcons != 0
  | .aboutStatFade => d.about && d.nStatItems != 0
  | .aboutStatCount => d.about && d.nStatItems != 0
  | .contactInfoEntrance => d.contact && d.contactInfo
  | .contactFormEntrance => d.contact && d.contactForm
  | .contactItemsEntrance => d.contact && d.nContactItems != 0
  | .formInputsEntrance => d.contact && d.nFormInputs != 0
  | .socialAmbient => d.contact && d.nSocialButtons != 0
  | .socialHover => d.contact && d.nSocialButtons != 0
  | .formFocus => d.contact && d.nFormInputs != 0
  | .serviceHover => d.nServiceCards != 0

/-- Animated pose of a project card: opacity, horizontal offset,
rotation. -/
structure CardPose where
  opacity : ℚ
  x : ℚ
  rotation : ℚ
  deriving DecidableEq

/-- Start pose of project card i (lines 239 to 243): even cards come
from x -100 and rotation -5, odd cards from x 100 and rotation 5, all at
opacity 0. -/
def projectFromPose (i : ℕ) : CardPose :=
  { opacity := 0,
    x := if i % 2 = 0 then -100 else 100,
    rotation := if i % 2 = 0 then -5 else 5 }

/-- End pose of every project card (lines 244 to 247): opacity 1, x 0,
rotation 0. -/
def projectToPose : CardPose :=
  { opacity := 1, x := 0, rotation := 0 }

/-- Every polynomial ease of the page ends at 1, so a tween that runs to
completion reaches its end state exactly. -/
theorem easeEval_one (k : EaseKind) : easeEval k 1 = 1 := by
  cases k <;> norm_num [easeEval]

/-- Every polynomial ease of the page starts at 0, so a tween renders
its start value at its own start time. -/
theorem easeEval_zero (k : EaseKind) : easeEval k 0 = 0 := by
  cases k <;> norm_num [easeEval]

/-- Interpolation at eased progress 1 lands on the end state. -/
theorem lerpS_one (a b : VisualState) : lerpS a b 1 = b := by
  ext <;> simp only [lerpS] <;> ring

/-- A leave tween of nonzero duration, started from any current state,
reaches its end state when it runs to completion. -/
theorem leaveValue_complete (p : HoverPair) (s0 : VisualState)
    (hd : p.leaveDur ≠ 0) : leaveValue p s0 p.leaveDur = p.leaveEnd := by
  unfold leaveValue
  rw [div_self hd, easeEval_one, lerpS_one]

/-- Membership in a guarded registration site. -/
theorem mem_chunk {b : Bool} {r x : Role} :
    x ∈ chunk b r ↔ b = true ∧ x = r := by
  cases b <;> simp [chunk]

/-- A left fold of max stays below any bound dominating the seed and
every element. -/
theorem foldl_max_le (B : ℚ) :
    ∀ (l : List ℚ) (acc : ℚ), acc ≤ B → (∀ x ∈ l, x ≤ B) →
      l.foldl max acc ≤ B
  | [], acc, hacc, _ => by simpa using hacc
  | x :: t, acc, hacc, h => by
    simp only [List.foldl_cons]
    exact foldl_max_le B t (max acc x)
      (max_le hacc (h x (List.mem_cons_self x t)))
      (fun y hy => h y (List.mem_cons_of_mem x hy))

/-- A budget stagger never spreads starts further apart than its amount,
whatever the size of the set. -/
theorem spread_budget_le (a : ℚ) (ha : 0 ≤ a) (o : StaggerOrigin) (n : ℕ) :
    spreadOf (.budget a o) n ≤ a := by
  unfold spreadOf offsets
  apply foldl_max_le a _ 0 ha
  intro x hx
  simp only [List.mem_map, List.mem_range] at hx
  obtain ⟨i, hi, rfl⟩ := hx
  rcases Nat.eq_zero_or_pos n with hn | hn
  · subst hn; exact absurd hi (Nat.not_lt_zero i)
  · have hn' : (0 : ℚ) < n := by exact_mod_cast hn
    rw [div_le_iff₀ hn']
    apply mul_le_mul_of_nonneg_left _ ha
    exact_mod_cast Nat.le_of_lt hi

/-- A numeric stagger spreads the first and last starts exactly the
per-item delay times one less than the size of the set. -/
theorem spread_each (d : ℚ) (hd : 0 ≤ d) (n : ℕ) :
    spreadOf (.each d) n = d * ((n - 1 : ℕ) : ℚ) := by
  induction n with
  | zero => simp [spreadOf, offsets]
  | succ m ih =>
    simp only [spreadOf, offsets] at ih ⊢
    rw [List.range_succ, List.map_append, List.foldl_append]
    simp only [List.map_cons, List.map_nil, List.foldl_cons, List.foldl_nil]
    rw [ih, Nat.add_sub_cancel]
    apply max_eq_right
    apply mul_le_mul_of_nonneg_left _ hd
    exact_mod_cast Nat.sub_le m 1

/-- The displayed counter text once the snapped value is known. -/
theorem counterText_of (c : Counter) (t : ℚ) (n : ℤ)
    (h : counterValue c t = n) :
    counterText c t = toString n ++ c.suffix := by
  unfold counterText
  rw [h]

/-- Midpoint of half-cycle k of an infinite yoyo tween lies in
half-cycle k: even half-cycles run toward the amplitude, odd ones run
back, so the oscillation alternates forever. -/
theorem halfCycle_mid (a : Ambient) (hd : 0 < a.dur) (k : ℕ) :
    halfCycle a (a.delay + k * a.dur + a.dur / 2) = k := by
  unfold halfCycle
  have hne : a.dur ≠ 0 := ne_of_gt hd
  have h1 : (a.delay + k * a.dur + a.dur / 2 - a.delay) / a.dur
      = (1/2 : ℚ) + (k : ℕ) := by
    field_simp
    ring
  rw [h1, Int.floor_add_nat]
  norm_num

/-- C1: the claim says that after teardown the number of live viewport
observers and pointer or focus listeners created by the mount effect is
zero and that none fires afterward.  On the fully rendered page one run
of the effect attaches 56 listeners; the cleanup revert kills every
recorded tween and scroll trigger but removes no DOM listener (the
component never calls removeEventListener), and a surviving badge
listener that fires after teardown still runs its handler and creates a
fresh tween. -/
theorem c1_teardown_leaves_listeners :
    (teardown (initPass pageDom ctx0)).tweens = 0 ∧
    (teardown (initPass pageDom ctx0)).triggers = 0 ∧
    (initPass pageDom ctx0).listeners = 56 ∧
    (teardown (initPass pageDom ctx0)).listeners = 56 ∧
    (fireBadgeHover (teardown (initPass pageDom ctx0))).tweens = 1 := by
  decide

/-- C2: at every step each stat counter displays a whole-number string
with the terminal suffix, the count starts at 0, and at the end of the
tween the displayed text is exactly the literal terminal markup value. -/
theorem c2_counter_whole_and_exact (c : Counter) (hc : c ∈ pageCounters)
    (t : ℚ) :
    (∃ n : ℤ, counterText c t = toString n ++ c.suffix) ∧
    counterText c 0 = toString (0 : ℤ) ++ c.suffix ∧
    counterText c c.dur = toString ((c.target : ℤ)) ++ c.suffix := by
  refine ⟨⟨counterValue c t, rfl⟩, ?_, ?_⟩ <;>
  · simp only [pageCounters, List.mem_cons, List.not_mem_nil, or_false] at hc
    rcases hc with rfl | rfl | rfl | rfl | rfl | rfl <;>
      exact counterText_of _ _ _ (by norm_num [counterValue, rnd, easeEval])

/-- Witness for C2 at the 100 percent counter: whole-number display at
an intermediate time and the exact terminal text at the end. -/
theorem c2_counter_whole_and_exact_witness :
    (∃ n : ℤ, counterText ⟨100, "%", 1.5⟩ (3/4) = toString n ++ "%") ∧
    counterText ⟨100, "%", 1.5⟩ 0 = toString (0 : ℤ) ++ "%" ∧
    counterText ⟨100, "%", 1.5⟩ 1.5 = toString (((100 : ℕ) : ℤ)) ++ "%" :=
  c2_counter_whole_and_exact ⟨100, "%", 1.5⟩
    (List.Mem.tail _ (List.Mem.tail _ (List.Mem.head _))) (3/4)

/-- C3: when the pointer leaves a social button at any time before its
enter tween completes, the replacing leave tween starts from the current
interpolated scale (no snap back: its rendered value at the switch
instant equals the in-flight value), and it targets and, on completion,
reaches the resting scale 1. -/
theorem c3_leave_starts_from_inflight (t1 : ℚ) (h1 : 0 < t1)
    (h2 : t1 < 0.6) :
    (socialLeaveAt (socialEnterAt socialRestScale 0) t1).tw.startVal
      = (socialEnterAt socialRestScale 0).valueAt t1 ∧
    (socialLeaveAt (socialEnterAt socialRestScale 0) t1).valueAt t1
      = (socialEnterAt socialRestScale 0).valueAt t1 ∧
    (socialLeaveAt (socialEnterAt socialRestScale 0) t1).tw.endVal = 1 ∧
    (socialLeaveAt (socialEnterAt socialRestScale 0) t1).valueAt (t1 + 0.4)
      = 1 := by
  refine ⟨rfl, ?_, rfl, ?_⟩
  · simp only [PropAnim.valueAt, Tween1.val, socialLeaveAt, socialEnterAt,
      socialRestScale, gsapTo, easeEval]
    ring
  · simp only [PropAnim.valueAt, Tween1.val, socialLeaveAt, socialEnterAt,
      socialRestScale, gsapTo, easeEval]
    ring

/-- Witness for C3: a leave at 0.3, halfway through the 0.6 enter tween,
starts from the in-flight value 487/400, which differs from the resting
scale 1. -/
theorem c3_leave_starts_from_inflight_witness :
    (0 : ℚ) < 0.3 ∧ (0.3 : ℚ) < 0.6 ∧
    ((socialLeaveAt (socialEnterAt socialRestScale 0) 0.3).tw.startVal
      = (socialEnterAt socialRestScale 0).valueAt 0.3 ∧
     (socialLeaveAt (socialEnterAt socialRestScale 0) 0.3).valueAt 0.3
      = (socialEnterAt socialRestScale 0).valueAt 0.3 ∧
     (socialLeaveAt (socialEnterAt socialRestScale 0) 0.3).tw.endVal = 1 ∧
     (socialLeaveAt (socialEnterAt socialRestScale 0) 0.3).valueAt (0.3 + 0.4)
      = 1) ∧
    (socialEnterAt socialRestScale 0).valueAt 0.3 = 487/400 ∧
    (487 : ℚ)/400 ≠ 1 :=
  ⟨by norm_num, by norm_num,
   c3_leave_starts_from_inflight 0.3 (by norm_num) (by norm_num),
   by norm_num [PropAnim.valueAt, Tween1.val, socialEnterAt,
     socialRestScale, gsapTo, easeEval],
   by norm_num⟩

/-- Counterexample for C4: the tech badge wave trigger is a viewport
intersection rule of the page with only an onEnter callback; it has no
reverse slot and never re-fires in reverse on exit, so not every
viewport rule of the page is reversible. -/
theorem c4_wave_not_reversible_cx :
    techWaveRule ∈ pageViewportRules ∧
    reversesOnExit techWaveRule = false ∧
    ¬ ∀ r ∈ pageViewportRules, reversesOnExit r = true := by
  decide

/-- C4 amended: every viewport rule of the page other than the wave
trigger carries toggle actions play none none reverse, hence reverses
when its target exits the threshold backward, and under those actions
entering plays forward to settled while leaving backward plays in
reverse back to idle. -/
theorem c4_viewport_reversibility_amended (r : ScrollRule)
    (hr : r ∈ pageViewportRules) (hw : r ≠ techWaveRule) :
    r.ta = some playNoneNoneReverse ∧
    reversesOnExit r = true ∧
    applyAction Phase.idle (taFor playNoneNoneReverse ScrollEv.enter)
      = Phase.playingF ∧
    finishTransition Phase.playingF = Phase.settled ∧
    applyAction Phase.settled (taFor playNoneNoneReverse ScrollEv.leaveBack)
      = Phase.playingR ∧
    finishTransition Phase.playingR = Phase.idle := by
  simp only [pageViewportRules, List.mem_cons, List.not_mem_nil, or_false] at hr
  rcases hr with rfl | rfl | rfl | rfl | rfl | rfl | rfl | rfl | rfl | rfl | rfl | rfl | rfl
  all_goals first
    | exact absurd rfl hw
    | decide

/-- Witness for C4 amended at the service cards entrance rule. -/
theorem c4_viewport_reversibility_amended_witness :
    serviceCardsRule ∈ pageViewportRules ∧
    serviceCardsRule ≠ techWaveRule ∧
    (serviceCardsRule.ta = some playNoneNoneReverse ∧
     reversesOnExit serviceCardsRule = true ∧
     applyAction Phase.idle (taFor playNoneNoneReverse ScrollEv.enter)
       = Phase.playingF ∧
     finishTransition Phase.playingF = Phase.settled ∧
     applyAction Phase.settled (taFor playNoneNoneReverse ScrollEv.leaveBack)
       = Phase.playingR ∧
     finishTransition Phase.playingR = Phase.idle) :=
  ⟨by decide, by decide,
   c4_viewport_reversibility_amended serviceCardsRule (by decide) (by decide)⟩

/-- Counterexample for C5: the hero buttons entrance staggers with the
numeric form, a fixed per-item delay and no divided budget; its
first-to-last spread is 0.2 for 2 targets, 1.4 for 8 and exceeds 1.2
(the largest budget configured anywhere on the page) at 13, so it is not
bounded by a configured spread budget regardless of the set size. -/
theorem c5_per_item_delay_cx :
    heroButtonsStag ∈ pageStaggerRules ∧
    usesBudget heroButtonsStag.stag = false ∧
    spreadOf heroButtonsStag.stag 2 = 0.2 ∧
    spreadOf heroButtonsStag.stag 8 = 1.4 ∧
    (1.2 : ℚ) < spreadOf heroButtonsStag.stag 13 ∧
    ¬ ∀ ru ∈ pageStaggerRules, usesBudget ru.stag = true := by
  refine ⟨List.Mem.head _, rfl, ?_, ?_, ?_,
    fun h => absurd (h heroButtonsStag (List.Mem.head _)) (by decide)⟩ <;>
  · simp only [spreadOf, offsets, heroButtonsStag, List.range_succ,
      List.range_zero, List.map_append, List.map_cons, List.map_nil,
      List.foldl_append, List.foldl_cons, List.foldl_nil]
    norm_num [max_def]

/-- C5 amended: the three object-form staggers of the page (tech badges
amount 1.2, wave amount 0.8, about icons amount 1) divide their budget,
so the first-to-last spread is bounded by the amount for every set size;
the four numeric staggers (hero buttons 0.2, service cards 0.2, contact
items 0.2, form inputs 0.1) are fixed per-item delays whose spread is
the delay times one less than the set size, growing without bound. -/
theorem c5_stagger_amended :
    (∀ n : ℕ, spreadOf techBadgesStag.stag n ≤ 1.2) ∧
    (∀ n : ℕ, spreadOf techWaveStag.stag n ≤ 0.8) ∧
    (∀ n : ℕ, spreadOf aboutIconsStag.stag n ≤ 1) ∧
    (∀ n : ℕ, spreadOf heroButtonsStag.stag n = 0.2 * ((n - 1 : ℕ) : ℚ)) ∧
    (∀ n : ℕ, spreadOf serviceCardsStag.stag n = 0.2 * ((n - 1 : ℕ) : ℚ)) ∧
    (∀ n : ℕ, spreadOf contactItemsStag.stag n = 0.2 * ((n - 1 : ℕ) : ℚ)) ∧
    (∀ n : ℕ, spreadOf formInputsStag.stag n = 0.1 * ((n - 1 : ℕ) : ℚ)) :=
  ⟨fun n => spread_budget_le 1.2 (by norm_num) .fromRandom n,
   fun n => spread_budget_le 0.8 (by norm_num) .fromStart n,
   fun n => spread_budget_le 1 (by norm_num) .fromCenter n,
   fun n => spread_each 0.2 (by norm_num) n,
   fun n => spread_each 0.2 (by norm_num) n,
   fun n => spread_each 0.2 (by norm_num) n,
   fun n => spread_each 0.1 (by norm_num) n⟩

/-- Counterexample for C6: running the mount effect twice on the mounted
page without an intervening teardown does not leave the same registered
set; every count doubles, in particular the 56 listeners become 112. -/
theorem c6_not_idempotent_cx :
    initPass pageDom (initPass pageDom ctx0) ≠ initPass pageDom ctx0 ∧
    (initPass pageDom (initPass pageDom ctx0)).listeners = 112 ∧
    (initPass pageDom ctx0).listeners = 56 := by
  decide

/-- C6 amended: the mount effect is not idempotent; each run adds its
full contribution again, so a second run without teardown leaves twice
the tweens, triggers and listeners of one run on top of the prior
state.  (In the mounted lifecycle React runs the effect once per mount
with the cleanup between runs, so the double registration never occurs
there.) -/
theorem c6_second_run_doubles (d : Dom) (s : CtxState) :
    initPass d (initPass d s)
      = ⟨s.tweens + 2 * (contrib d).tweens,
         s.triggers + 2 * (contrib d).triggers,
         s.listeners + 2 * (contrib d).listeners⟩ := by
  simp only [initPass, CtxState.mk.injEq]
  omega

/-- C7: a rule whose target is missing from the mounted tree is skipped
and nothing else changes; a role is registered by the mount effect
exactly when its target is present, for every tree, so missing targets
never abort the pass and never suppress the remaining rules. -/
theorem c7_missing_target_skip (d : Dom) (r : Role) :
    r ∈ activeRules d ↔ rolePresent d r = true := by
  cases r <;> simp [activeRules, mem_chunk, rolePresent]

/-- C8: every tech badge breathing tween and every social button spin
tween is an infinite yoyo oscillation on scale or rotation (repeat -1,
yoyo, never reaching a finished state, forward and backward half-cycles
alternating forever), registered by the mount effect on the rendered
page alongside the scroll-triggered entrance and the pointer listeners
on the same elements, and killed by the teardown revert. -/
theorem c8_ambient_yoyo (i j : ℕ) (sinI cosI rb rs : ℚ) (hrb : 0 ≤ rb) :
    (breathing i rb).rep = -1 ∧ (breathing i rb).yoyo = true ∧
    (breathing i rb).props = [AnimProp.scale] ∧
    neverCompletes (breathing i rb) ∧
    (socialSpin j sinI cosI rs).rep = -1 ∧
    (socialSpin j sinI cosI rs).yoyo = true ∧
    (socialSpin j sinI cosI rs).props
      = [AnimProp.rotationY, AnimProp.rotationX] ∧
    neverCompletes (socialSpin j sinI cosI rs) ∧
    Role.techBreathing ∈ activeRules pageDom ∧
    Role.socialAmbient ∈ activeRules pageDom ∧
    Role.techEntrance ∈ activeRules pageDom ∧
    Role.techHover ∈ activeRules pageDom ∧
    (teardown (initPass pageDom ctx0)).tweens = 0 ∧
    ∀ k : ℕ, halfCycle (breathing i rb)
      ((breathing i rb).delay + k * (breathing i rb).dur
        + (breathing i rb).dur / 2) = k := by
  refine ⟨rfl, rfl, rfl, ?_, rfl, rfl, rfl, ?_,
    by decide, by decide, by decide, by decide, by decide, ?_⟩
  · rintro t ⟨h0, -⟩
    norm_num [breathing] at h0
  · rintro t ⟨h0, -⟩
    norm_num [socialSpin] at h0
  · intro k
    refine halfCycle_mid _ ?_ k
    show (0 : ℚ) < 2 + rb
    linarith

/-- Witness for C8 at the first badge and first button with zero random
fractions and zero sine and cosine. -/
theorem c8_ambient_yoyo_witness :
    (breathing 0 0).rep = -1 ∧ (breathing 0 0).yoyo = true ∧
    (breathing 0 0).props = [AnimProp.scale] ∧
    neverCompletes (breathing 0 0) ∧
    (socialSpin 0 0 1 0).rep = -1 ∧
    (socialSpin 0 0 1 0).yoyo = true ∧
    (socialSpin 0 0 1 0).props
      = [AnimProp.rotationY, AnimProp.rotationX] ∧
    neverCompletes (socialSpin 0 0 1 0) ∧
    Role.techBreathing ∈ activeRules pageDom ∧
    Role.socialAmbient ∈ activeRules pageDom ∧
    Role.techEntrance ∈ activeRules pageDom ∧
    Role.techHover ∈ activeRules pageDom ∧
    (teardown (initPass pageDom ctx0)).tweens = 0 ∧
    ∀ k : ℕ, halfCycle (breathing 0 0)
      ((breathing 0 0).delay + k * (breathing 0 0).dur
        + (breathing 0 0).dur / 2) = k :=
  c8_ambient_yoyo 0 0 0 1 0 0 (le_refl 0)

/-- C9: for every pointer or focus interaction pair of the page, the
leave or blur tween ends exactly at the resting state, and running it to
completion from any current state (in particular any in-flight state)
lands on the resting state: a completed enter then leave round trip
restores every animated property to its original resting value. -/
theorem c9_hover_round_trip (p : HoverPair) (hp : p ∈ hoverPairs)
    (s0 : VisualState) :
    p.leaveEnd = restState ∧
    leaveValue p s0 p.leaveDur = restState := by
  have hd : p.leaveDur ≠ 0 := by
    simp only [hoverPairs, List.mem_cons, List.not_mem_nil, or_false] at hp
    rcases hp with rfl | rfl | rfl | rfl | rfl | rfl <;>
      norm_num [techBadgePair, aboutIconPair, socialButtonPair,
        formInputPair, serviceCardPair, serviceIconPair]
  have he : p.leaveEnd = restState := by
    simp only [hoverPairs, List.mem_cons, List.not_mem_nil, or_false] at hp
    rcases hp with rfl | rfl | rfl | rfl | rfl | rfl <;> rfl
  exact ⟨he, by rw [leaveValue_complete p s0 hd, he]⟩

/-- Witness for C9 at the tech badge pair, leaving from a state halfway
into the enter transition. -/
theorem c9_hover_round_trip_witness :
    techBadgePair ∈ hoverPairs ∧
    (techBadgePair.leaveEnd = restState ∧
     leaveValue techBadgePair
       { opacity := 1, x := 0, y := -4, z := 0, scale := 1.05,
         rotation := 0, rotationX := 0, rotationY := 0, shadowY := 5,
         shadowBlur := 12.5, shadowAlpha := 0.15 }
       techBadgePair.leaveDur = restState) :=
  ⟨List.Mem.head _, c9_hover_round_trip techBadgePair (List.Mem.head _) _⟩

/-- C10: every even-index project card enters from x -100 and rotation
-5 at opacity 0, every odd-index card from x 100 and rotation 5, and
every card ends at opacity 1, x 0, rotation 0. -/
theorem c10_project_parity (i : ℕ) :
    (i % 2 = 0 →
      projectFromPose i = { opacity := 0, x := -100, rotation := -5 }) ∧
    (i % 2 ≠ 0 →
      projectFromPose i = { opacity := 0, x := 100, rotation := 5 }) ∧
    projectToPose = { opacity := 1, x := 0, rotation := 0 } := by
  refine ⟨fun h => ?_, fun h => ?_, rfl⟩ <;> simp [projectFromPose, h]

/-- Witness for C10 at the first (even) and second (odd) project card. -/
theorem c10_project_parity_witness :
    ((0 : ℕ) % 2 = 0) ∧
    projectFromPose 0 = { opacity := 0, x := -100, rotation := -5 } ∧
    ((1 : ℕ) % 2 ≠ 0) ∧
    projectFromPose 1 = { opacity := 0, x := 100, rotation := 5 } ∧
    projectToPose = { opacity := 1, x := 0, rotation := 0 } :=
  ⟨rfl, (c10_project_parity 0).1 rfl, by decide,
   (c10_project_parity 1).2.1 (by decide), (c10_project_parity 0).2.2⟩

end SoftHub
